import Mathlib

set_option autoImplicit false

namespace Logcall

/-! Shallow embedding of the `logcall` attribute macro (src/lib.rs).

The directive parser (`MacroArgs::parse`) is modelled over a structured view of
the attribute token stream: an optional leading bare literal followed by the
`name = value` / `skip = [idents]` entries, each literal value already trimmed
of its quotes (mirroring `trim_quotes`).
-/

/-- Egress-logging configuration, mirroring `enum LogEgressArgs` in src/lib.rs. -/
inductive LogEgressArgs where
  | Simple (level : String)
  | Result (ok_level err_level : Option String)
deriving Repr, DecidableEq

/-- The parsed directive, mirroring `struct MacroArgs` in src/lib.rs. -/
structure MacroArgs where
  log_ingress_level : Option String
  log_egress_args : Option LogEgressArgs
  params : Option (List String)
  debug : Bool
deriving Repr, DecidableEq

/-- One `name = value` entry of the attribute payload, after the optional
leading bare literal.  A `skip = [idents]` entry carries the identitifer list;
all other entries carry a literal value with the quotes already trimmed. -/
inductive Entry where
  | nameValue (name : String) (value : String)
  | skipEntry (idents : List String)
deriving Repr, DecidableEq

/-- The structured view of the raw attribute tokens: the optional leading bare
level literal (already trimmed of quotes) plus the comma-separated entries. -/
structure DirectiveInput where
  legacy : Option String
  entries : List Entry
deriving Repr, DecidableEq

/-- The `abort_call_site!` and failed `assert!` outcomes of `MacroArgs::parse`
that remain representable over `DirectiveInput`. -/
inductive ParseError where
  | unknownName (name : String)
  | skipNotArray
  | noOp
deriving Repr, DecidableEq

/-- The accumulating state of the entry loop in `MacroArgs::parse`
(the local mutable `ok`, `err`, `ingress`, `egress`, `skip`, `debug`). -/
structure ParseState where
  ok : Option String
  err : Option String
  ingress : Option String
  egress : Option String
  skip : Option (List String)
  debug : Option String
deriving Repr, DecidableEq

/-- The state at the start of the entry loop: all options unset. -/
def initState : ParseState :=
  { ok := none, err := none, ingress := none, egress := none,
    skip := none, debug := none }

/-- One iteration of the `for name_value in &name_values` loop of
`MacroArgs::parse`.  A `skip` entry appends to the accumulated skip list
(`skip.get_or_insert_with(Vec::new)` followed by pushes); `Option.replace`
overwrites on duplicates; an unknown name aborts. -/
def processEntry (st : ParseState) : Entry → Except ParseError ParseState
  | Entry.skipEntry idents =>
      Except.ok { st with skip := some ((st.skip.getD []) ++ idents) }
  | Entry.nameValue name value =>
      match name with
      | "skip" => Except.error ParseError.skipNotArray
      | "err" => Except.ok { st with err := some value }
      | "ok" => Except.ok { st with ok := some value }
      | "ingress" => Except.ok { st with ingress := some value }
      | "egress" => Except.ok { st with egress := some value }
      | "debug" => Except.ok { st with debug := some value }
      | other => Except.error (ParseError.unknownName other)

/-- The whole entry loop of `MacroArgs::parse`. -/
def resolveEntries (entries : List Entry) : Except ParseError ParseState :=
  entries.foldlM processEntry initState

/-- The "ingress logging rules" of `MacroArgs::parse` (src/lib.rs 161-165):
if ingress logging is enabled and no skip list was given, default it to the
explicit empty list. -/
def resolveSkip (st : ParseState) : Option (List String) :=
  if st.ingress.isSome && st.skip.isNone then some [] else st.skip

/-- The "egress logging rules" of `MacroArgs::parse` (src/lib.rs 167-186):
an explicit `egress=` level wins, then the legacy bare literal, then the
`ok`/`err` pair. -/
def resolveEgress (legacy : Option String) (st : ParseState) :
    Option LogEgressArgs :=
  match st.egress with
  | some simple_output_level => some (LogEgressArgs.Simple simple_output_level)
  | none =>
    match legacy with
    | some simple_output_level => some (LogEgressArgs.Simple simple_output_level)
    | none =>
      if st.ok.isNone && st.err.isNone then none
      else some (LogEgressArgs.Result st.ok st.err)

/-- The `MacroArgs` record built by a successful `MacroArgs::parse` run. -/
def mkMacroArgs (legacy : Option String) (st : ParseState) : MacroArgs :=
  { log_ingress_level := st.ingress,
    log_egress_args := resolveEgress legacy st,
    params := resolveSkip st,
    debug := (st.debug.map (fun str_val => str_val == "true")).getD false }

/-- The tail of `MacroArgs::parse`: the "parameters set checks" and the
construction of the `MacroArgs` value (src/lib.rs lines 158-196). -/
def finishParse (legacy : Option String) (st : ParseState) :
    Except ParseError MacroArgs :=
  if st.ingress.isSome || (resolveEgress legacy st).isSome then
    Except.ok (mkMacroArgs legacy st)
  else
    Except.error ParseError.noOp

/-- `MacroArgs::parse` over the structured token view. -/
def MacroArgs.parse (input : DirectiveInput) : Except ParseError MacroArgs :=
  match resolveEntries input.entries with
  | Except.error e => Except.error e
  | Except.ok st => finishParse input.legacy st

/-! ## Format builder (src/features.rs and `build_input_format_arguments`) -/

/-- `FORMAT_PLACEHOLDER` from src/features.rs under the default feature set:
the debug-style serialization placeholder. -/
def FORMAT_PLACEHOLDER : String := "\x7b:?\x7d"

/-- Ordered concatenation of string pieces, modelling `.collect::<String>()`
over the mapped iterator. -/
def concatAll : List String → String
  | [] => ""
  | s :: ss => s ++ concatAll ss

/-- Rendering of a comma-punctuated identifier sequence (the `Punctuated`
token stream before the extra trailing comma is appended). -/
def joinSep : List String → String
  | [] => ""
  | [v] => v
  | v :: vs => v ++ ", " ++ joinSep vs

/-- `build_input_format_arguments` (src/lib.rs 592-626): the format string
with one `name: placeholder` entry per parameter, and the ordered list of
value identifiers to render (skipped parameters contribute none).  The
`Punctuated<Ident, Comma>` value stream is modelled as the list of identifier
names. -/
def build_input_format_arguments (param_ident_builder : String → String)
    (param_idents : List String) (to_skip : List String) :
    String × List String :=
  let format_placeholders : String :=
    concatAll ((param_idents.enum).map (fun p =>
      let param_name := p.2
      let placeholder :=
        if to_skip.contains param_name then "<skipped>" else FORMAT_PLACEHOLDER
      let placeholder_separator := if p.1 > 0 then ", " else ""
      placeholder_separator ++ (param_name ++ ": " ++ placeholder)))
  let format_values : List String :=
    (param_idents.filter (fun n => !(to_skip.contains n))).map param_ident_builder
  (format_placeholders, format_values)

/-- The rendered `format_values` token stream: the punctuated identifiers with
the extra trailing comma that src/lib.rs 621-624 appends exactly when the
stream is nonempty. -/
def render_format_values (vals : List String) : String :=
  if vals.isEmpty then "" else joinSep vals ++ ","

/-- Modelled from the spec: "a human-readable format string of the shape
`name1: <value-or-"<skipped>">, name2: ...`, comma-joined in parameter
order". -/
def spec_format_string (param_idents to_skip : List String) : String :=
  joinSep (param_idents.map (fun n =>
    n ++ ": " ++ (if to_skip.contains n then "<skipped>" else FORMAT_PLACEHOLDER)))

/-! ## Code synthesizer (`gen_ingress_*` / `gen_egress_*` in src/lib.rs) -/

/-- Synthesis-time failures: the `abort_call_site!` calls of the generators,
the parameter-extraction abort and the `unimplemented!` on the old
async-trait construction. -/
inductive SynthError where
  | unknownLevel (level : String)
  | unknownParamDecl
  | asyncTraitTooOld
deriving Repr, DecidableEq

/-- ASCII lowercasing of one character, modelling `str::to_lowercase` on the
level names. -/
def charToLower (c : Char) : Char :=
  if 'A' ≤ c ∧ c ≤ 'Z' then Char.ofNat (c.toNat + 32) else c

/-- `level.to_lowercase()`. -/
def strToLower (s : String) : String := String.mk (s.data.map charToLower)

/-- The fixed set of log levels accepted by the synthesizer
(src/lib.rs 505 and 546). -/
def VALID_LEVELS : List String := ["error", "warn", "info", "debug", "trace"]

/-- `cloned_param_ident` (src/lib.rs 491-493). -/
def cloned_param_ident (param_name : String) : String := "__cloned_" ++ param_name

/-- `param_ident` (src/lib.rs 494-496). -/
def param_ident (param_name : String) : String := param_name

/-- `MacroArgs::should_clone_params` — constantly true in the current code. -/
def MacroArgs.should_clone_params (_ : MacroArgs) : Bool := true

/-- `MacroArgs::gen_skip_params_list`: the explicit skip list, or all the
parameter names when none was given. -/
def MacroArgs.gen_skip_params_list (m : MacroArgs) (fn_args : List String) :
    List String :=
  m.params.getD fn_args

/-- `build_wanted_params_list` (src/lib.rs 629-641): the parameters that are
not skipped, in order. -/
def build_wanted_params_list (param_idents to_skip : List String) : List String :=
  param_idents.filter (fun n => !(to_skip.contains n))

/-- One generated `::log::level!` call: the level, the format string, the
function-name argument, the parameter value identifiers rendered into it, and
the optional return-value identifier. -/
structure LogCall where
  level : String
  fmt : String
  fnName : String
  paramValueIdents : List String
  retIdent : Option String
deriving Repr, DecidableEq

/-- One statement of the synthesized wrapped body. -/
inductive GenStmt where
  | cloneParam (cloned original : String)
  | logStmt (call : LogCall)
  | runBody (ret_ident : String)
  | matchRet (ret_ident : String) (okArm errArm : Option LogCall)
  | retExpr (ident : String)
  | bareBody
deriving Repr, DecidableEq

/-- How the egress template nests the body: plain statements, an `async move`
block, or an `async move` block immediately awaited (src/lib.rs 357-371 and
438-456). -/
inductive BlockWrapper where
  | plain
  | asyncBlock
  | asyncBlockAwaited
deriving Repr, DecidableEq

/-- The output of `gen_egress_block`. -/
structure EgressBlock where
  wrapper : BlockWrapper
  stmts : List GenStmt
deriving Repr, DecidableEq

/-- The output of `gen_ingress_block`: the pre-body statements (parameter
clones and the optional ingress log) followed by the egress-wrapped body. -/
structure WrappedBody where
  pre : List GenStmt
  egress : EgressBlock
deriving Repr, DecidableEq

/-- The log call built by `gen_ingress_log` once the level has been
validated: ingress format string, original parameter identifiers, no return
value. -/
def mk_ingress_log_call (level fn_name : String) (param_names : List String)
    (params_to_skip : Option (List String)) : LogCall :=
  let to_skip := params_to_skip.getD param_names
  let p := build_input_format_arguments param_ident param_names to_skip
  { level := level, fmt := "<= \x7b\x7d(" ++ p.1 ++ "):",
    fnName := fn_name, paramValueIdents := p.2, retIdent := none }

/-- `gen_ingress_log` (src/lib.rs 498-532), default feature set. -/
def gen_ingress_log (level fn_name : String) (param_names : List String)
    (params_to_skip : Option (List String)) : Except SynthError LogCall :=
  let level := strToLower level
  if !(VALID_LEVELS.contains level) then
    Except.error (SynthError.unknownLevel level)
  else
    Except.ok (mk_ingress_log_call level fn_name param_names params_to_skip)

/-- The log call built by `gen_egress_log` once the level has been validated:
egress format string, pre-body cloned parameter identifiers, and the
return-value identifier surrounded by `ret_open`/`ret_close` in the format
string. -/
def mk_egress_log_call (level fn_name : String) (param_names : List String)
    (params_to_skip : Option (List String))
    (return_value_name ret_open ret_close : String) : LogCall :=
  let to_skip := params_to_skip.getD param_names
  let p := build_input_format_arguments cloned_param_ident param_names to_skip
  { level := level,
    fmt := "\x7b\x7d(" ++ p.1 ++ ") => " ++ ret_open ++ FORMAT_PLACEHOLDER ++ ret_close,
    fnName := fn_name, paramValueIdents := p.2,
    retIdent := some return_value_name }

/-- `gen_egress_log` (src/lib.rs 534-586), default feature set. -/
def gen_egress_log (level fn_name : String) (param_names : List String)
    (params_to_skip : Option (List String))
    (return_value_name ret_open ret_close : String) : Except SynthError LogCall :=
  let level := strToLower level
  if !(VALID_LEVELS.contains level) then
    Except.error (SynthError.unknownLevel level)
  else
    Except.ok (mk_egress_log_call level fn_name param_names params_to_skip
      return_value_name ret_open ret_close)

/-- The async/sync nesting choice shared by both egress templates. -/
def egressWrapper (async_context async_keyword : Bool) : BlockWrapper :=
  if async_context then
    (if async_keyword then BlockWrapper.asyncBlockAwaited else BlockWrapper.asyncBlock)
  else BlockWrapper.plain

/-- One arm of the dual-outcome template (the `ok_arm`/`err_arm` construction
at src/lib.rs 395-434): a configured level yields its log call, an
unconfigured level yields the silent `=> ()` arm, modelled as `none`. -/
def gen_result_arm (lvl : Option String) (fn_name : String)
    (fn_args : List String) (m : MacroArgs)
    (return_value_name ret_open ret_close : String) :
    Except SynthError (Option LogCall) :=
  match lvl with
  | some l =>
    match gen_egress_log l fn_name fn_args m.params return_value_name
        ret_open ret_close with
    | Except.error e => Except.error e
    | Except.ok log => Except.ok (some log)
  | none => Except.ok none

/-- `gen_egress_block` (src/lib.rs 332-471). -/
def gen_egress_block (async_context async_keyword : Bool) (fn_name : String)
    (fn_args : List String) (m : MacroArgs) : Except SynthError EgressBlock :=
  match m.log_egress_args with
  | none => Except.ok { wrapper := BlockWrapper.plain, stmts := [GenStmt.bareBody] }
  | some (LogEgressArgs.Simple level) =>
    match gen_egress_log level fn_name fn_args m.params "__ret_value" "" "" with
    | Except.error e => Except.error e
    | Except.ok log =>
      Except.ok { wrapper := egressWrapper async_context async_keyword,
                  stmts := [GenStmt.runBody "__ret_value", GenStmt.logStmt log,
                            GenStmt.retExpr "__ret_value"] }
  | some (LogEgressArgs.Result ok_level err_level) =>
    match gen_result_arm ok_level fn_name fn_args m "__ok_value" "Ok(" ")" with
    | Except.error e => Except.error e
    | Except.ok okArm =>
      match gen_result_arm err_level fn_name fn_args m "__err_value" "Err(" ")" with
      | Except.error e => Except.error e
      | Except.ok errArm =>
        Except.ok { wrapper := egressWrapper async_context async_keyword,
                    stmts := [GenStmt.runBody "__ret_value",
                              GenStmt.matchRet "__ret_value" okArm errArm,
                              GenStmt.retExpr "__ret_value"] }

/-- `gen_ingress_clone_params` (src/lib.rs 473-489): one
`let __cloned_x = x.clone();` statement per wanted (non-skipped) parameter,
emitted before the body runs. -/
def gen_ingress_clone_params (m : MacroArgs) (fn_args : List String) :
    List GenStmt :=
  if m.should_clone_params then
    (build_wanted_params_list fn_args (m.gen_skip_params_list fn_args)).map
      (fun wanted_param =>
        GenStmt.cloneParam (cloned_param_ident wanted_param) (param_ident wanted_param))
  else []

/-- `gen_ingress_block` (src/lib.rs 315-329): the clone statements, then the
optional ingress log, then the (egress-wrapped) body. -/
def gen_ingress_block (egress : EgressBlock) (fn_name : String)
    (fn_args : List String) (m : MacroArgs) : Except SynthError WrappedBody :=
  let collect_and_serialize := gen_ingress_clone_params m fn_args
  match m.log_ingress_level with
  | none => Except.ok { pre := collect_and_serialize, egress := egress }
  | some lvl =>
    match gen_ingress_log lvl fn_name fn_args m.params with
    | Except.error e => Except.error e
    | Except.ok log =>
      Except.ok { pre := collect_and_serialize ++ [GenStmt.logStmt log],
                  egress := egress }

/-- The identifier bound by a clone statement, when the statement is one. -/
def cloneIdentOf : GenStmt → Option String
  | GenStmt.cloneParam cloned _ => some cloned
  | _ => none

/-- The identifiers bound by the clone statements preceding the body. -/
def preBodyCloneIdents (w : WrappedBody) : List String :=
  w.pre.filterMap cloneIdentOf

/-- Every egress-side log call of an egress block: the simple egress log and
the configured match arms, in order. -/
def egressLogsOf (eb : EgressBlock) : List LogCall :=
  eb.stmts.foldr (fun s acc =>
    match s with
    | GenStmt.logStmt l => l :: acc
    | GenStmt.matchRet _ okArm errArm => okArm.toList ++ errArm.toList ++ acc
    | _ => acc) []

/-- Every egress-side log call of the wrapped body. -/
def egressLogs (w : WrappedBody) : List LogCall :=
  egressLogsOf w.egress

/-- A dual-outcome (`Result`) value produced by the instrumented body. -/
inductive Outcome (α ε : Type) where
  | ok (v : α)
  | err (e : ε)
deriving Repr, DecidableEq

/-- Evaluation of the generated egress statements against the outcome the
original body produced: the value the wrapped body hands back to the caller,
and the emitted (level, logged outcome) events in order.  `runBody` binds the
sole return identifier, the match arms log only the configured side, and the
trailing return expression re-surfaces the bound outcome. -/
def evalEgressStmts {α ε : Type} (r : Outcome α ε) :
    List GenStmt → Option (Outcome α ε) × List (String × Outcome α ε)
  | [] => (none, [])
  | GenStmt.bareBody :: _ => (some r, [])
  | GenStmt.retExpr _ :: _ => (some r, [])
  | GenStmt.logStmt l :: rest =>
    let p := evalEgressStmts r rest
    (p.1, (l.level, r) :: p.2)
  | GenStmt.matchRet _ okArm errArm :: rest =>
    let evs : List (String × Outcome α ε) :=
      match r with
      | Outcome.ok v => (okArm.map (fun l => (l.level, Outcome.ok v))).toList
      | Outcome.err e => (errArm.map (fun l => (l.level, Outcome.err e))).toList
    let p := evalEgressStmts r rest
    (p.1, evs ++ p.2)
  | GenStmt.cloneParam _ _ :: rest => evalEgressStmts r rest
  | GenStmt.runBody _ :: rest => evalEgressStmts r rest

/-! ## async-trait pattern detector and the `logcall` entry point -/

mutual
/-- The expression shapes `get_async_trait_info` inspects: paths, calls,
async blocks (with their capture flag and inner statements), and anything
else. -/
inductive RExpr where
  | path (segs : List String)
  | call (func : RExpr) (args : List RExpr)
  | asyncExpr (capture_move : Bool) (stmts : List RStmt)
  | otherExpr

/-- The statement shapes `get_async_trait_info` inspects: nested `fn` items
(with their suspension flag), trailing expression statements, and anything
else. -/
inductive RStmt where
  | itemFn (name : String) (is_async : Bool)
  | exprStmt (e : RExpr)
  | otherStmt
end

/-- `path_to_string` (src/lib.rs 803-814): the segments joined by "::". -/
def path_to_string : List String → String
  | [] => ""
  | [s] => s
  | s :: ss => s ++ "::" ++ path_to_string ss

/-- `str::ends_with` modelled on the character lists. -/
def strEndsWith (s suff : String) : Bool := suff.data.isSuffixOf s.data

/-- `AsyncTraitKind` (src/lib.rs 686-691): the old (async-trait <= 0.1.43)
function-based construction, or the new (>= 0.1.44) async-block construction
carrying the block to instrument.  The `_source_stmt` field of
`AsyncTraitInfo` is never read by the macro and is omitted. -/
inductive AsyncTraitKind where
  | function
  | asyncKind (stmts : List RStmt)

/-- `get_async_trait_info` (src/lib.rs 715-800). -/
def get_async_trait_info (block : List RStmt) (block_is_async : Bool) :
    Option AsyncTraitKind :=
  if block_is_async then none
  else
    match block.reverse.findSome? (fun s =>
      match s with
      | RStmt.exprStmt e => some e
      | _ => none) with
    | none => none
    | some last_expr =>
      match last_expr with
      | RExpr.call outside_func outside_args =>
        match outside_func with
        | RExpr.path p =>
          if strEndsWith (path_to_string p) "Box::pin" then
            match outside_args with
            | [] => none
            | arg0 :: _ =>
              match arg0 with
              | RExpr.asyncExpr capture_move stmts =>
                if capture_move then some (AsyncTraitKind.asyncKind stmts) else none
              | RExpr.call inner_func _ =>
                match inner_func with
                | RExpr.path fp =>
                  match block.find? (fun s =>
                    match s with
                    | RStmt.itemFn n is_async => is_async && (n == path_to_string fp)
                    | _ => false) with
                  | some _ => some AsyncTraitKind.function
                  | none => none
                | _ => none
              | _ => none
          else none
        | _ => none
      | _ => none

/-- One formal parameter as the macro classifies it (src/lib.rs 210-225):
the receiver, a plain identifier pattern, or any other pattern (which
aborts). -/
inductive FnArg where
  | receiver
  | typedIdent (name : String) (ty : String)
  | typedPat (ty : String)
deriving Repr, DecidableEq

/-- The signature fields the macro destructures and re-emits verbatim
(src/lib.rs 283-298): name, qualifiers, abi, generic parameters, where
clause, parameter list and return type. -/
structure FnSig where
  ident : String
  constness : Bool
  unsafety : Bool
  asyncness : Bool
  abi : Option String
  gen_params : List String
  where_clause : Option String
  inputs : List FnArg
  output : String
deriving Repr, DecidableEq

/-- The annotated function handed to the macro. -/
structure ItemFnR where
  attrs : List String
  vis : String
  sig : FnSig
  block : List RStmt

/-- The rewritten body: the plain instrumented block, or — for the detected
async-trait shape — the instrumented block re-wrapped in `Box::pin(async …)`
(src/lib.rs 257-260). -/
inductive RewrittenBody where
  | plain (w : WrappedBody)
  | boxPinned (w : WrappedBody)

/-- The rewritten declaration assembled at src/lib.rs 300-307. -/
structure RewrittenFn where
  attrs : List String
  vis : String
  sig : FnSig
  body : RewrittenBody

/-- The macro outcome on success: the rewritten declaration is either emitted
into the program, or — with `debug="true"` — rendered in a compile-stopping
diagnostic dump (the `panic!` at src/lib.rs 308-310). -/
inductive LogcallResult where
  | emitted (f : RewrittenFn)
  | debugDump (f : RewrittenFn)

/-- The rewritten declaration carried by either macro outcome. -/
def LogcallResult.fn : LogcallResult → RewrittenFn
  | LogcallResult.emitted f => f
  | LogcallResult.debugDump f => f

/-- The `fn_args` extraction (src/lib.rs 210-225): the receiver contributes
`self`, a plain identifier pattern its name, and any other pattern aborts. -/
def extract_fn_args : List FnArg → Except SynthError (List String)
  | [] => Except.ok []
  | FnArg.receiver :: rest =>
    match extract_fn_args rest with
    | Except.error e => Except.error e
    | Except.ok tl => Except.ok ("self" :: tl)
  | FnArg.typedIdent name _ :: rest =>
    match extract_fn_args rest with
    | Except.error e => Except.error e
    | Except.ok tl => Except.ok (name :: tl)
  | FnArg.typedPat _ :: _ => Except.error SynthError.unknownParamDecl

/-- The body synthesis step of `logcall` (src/lib.rs 227-277): dispatch on
the detector, refuse the old async-trait construction, otherwise nest the
egress and ingress generators (with `(async_context, async_keyword)` being
`(true, false)` for the redirected async-trait block and
`(asyncness, asyncness)` otherwise). -/
def gen_wrapped_body (margs : MacroArgs) (f : ItemFnR) (fn_args : List String) :
    Except SynthError RewrittenBody :=
  match get_async_trait_info f.block f.sig.asyncness with
  | some AsyncTraitKind.function => Except.error SynthError.asyncTraitTooOld
  | some (AsyncTraitKind.asyncKind _) =>
    match gen_egress_block true false f.sig.ident fn_args margs with
    | Except.error e => Except.error e
    | Except.ok eb =>
      match gen_ingress_block eb f.sig.ident fn_args margs with
      | Except.error e => Except.error e
      | Except.ok w => Except.ok (RewrittenBody.boxPinned w)
  | none =>
    match gen_egress_block f.sig.asyncness f.sig.asyncness f.sig.ident fn_args margs with
    | Except.error e => Except.error e
    | Except.ok eb =>
      match gen_ingress_block eb f.sig.ident fn_args margs with
      | Except.error e => Except.error e
      | Except.ok w => Except.ok (RewrittenBody.plain w)

/-- The `logcall` attribute entry point (src/lib.rs 202-312) for an already
parsed directive: extract the parameter names, synthesize the wrapped body,
and re-emit the declaration with every signature field taken verbatim from
the input, panicking into the diagnostic dump when `debug` is set. -/
def logcall (margs : MacroArgs) (f : ItemFnR) : Except SynthError LogcallResult :=
  match extract_fn_args f.sig.inputs with
  | Except.error e => Except.error e
  | Except.ok fn_args =>
    match gen_wrapped_body margs f fn_args with
    | Except.error e => Except.error e
    | Except.ok body =>
      let out : RewrittenFn :=
        { attrs := f.attrs, vis := f.vis, sig := f.sig, body := body }
      if margs.debug then Except.ok (LogcallResult.debugDump out)
      else Except.ok (LogcallResult.emitted out)

end Logcall

namespace Logcall

/-- Helper: a successful entry loop reduces `MacroArgs.parse` to the final
checks over the loop state. -/
theorem parse_eq_finish (input : DirectiveInput) (st : ParseState)
    (hres : resolveEntries input.entries = Except.ok st) :
    MacroArgs.parse input = finishParse input.legacy st := by
  unfold MacroArgs.parse
  rw [hres]

/-- Helper: inverting a successful run of the final parse checks. -/
theorem finishParse_ok_inv (legacy : Option String) (st : ParseState)
    (args : MacroArgs) (h : finishParse legacy st = Except.ok args) :
    args = mkMacroArgs legacy st := by
  unfold finishParse at h
  split at h
  · injection h with h2
    exact h2.symm
  · exact absurd h (by simp)

/-- C1 (evaluation at the failing inputs): the parser accepts a payload that
combines the legacy bare literal with an explicit `egress=` entry, silently
producing `Simple("warn")`, and accepts the legacy literal together with an
`ok=` entry, silently producing `Simple("info")` and discarding `ok` — in both
cases no conflict error is raised, contradicting the macro's own doc comment
(form 17 in src/lib.rs) and the spec. -/
theorem c1_conflicts_silently_accepted :
    MacroArgs.parse { legacy := some "info",
                      entries := [Entry.nameValue "egress" "warn"] } =
      Except.ok { log_ingress_level := none,
                  log_egress_args := some (LogEgressArgs.Simple "warn"),
                  params := none, debug := false } ∧
    MacroArgs.parse { legacy := some "info",
                      entries := [Entry.nameValue "ok" "warn"] } =
      Except.ok { log_ingress_level := none,
                  log_egress_args := some (LogEgressArgs.Simple "info"),
                  params := none, debug := false } :=
  ⟨rfl, rfl⟩

/-- C2 counterexample: a directive containing both `egress="info"` and
`ok="warn"` parses successfully to the `Simple "info"` egress mode — not to a
`DualOutcome` mode as the claim states: `egress` takes precedence over
`ok`/`err` in the code, not the other way around. -/
theorem c2_counterexample :
    MacroArgs.parse { legacy := none,
                      entries := [Entry.nameValue "egress" "info",
                                  Entry.nameValue "ok" "warn"] } =
      Except.ok { log_ingress_level := none,
                  log_egress_args := some (LogEgressArgs.Simple "info"),
                  params := none, debug := false } ∧
    LogEgressArgs.Simple "info" ≠ LogEgressArgs.Result (some "warn") none :=
  ⟨rfl, by decide⟩

/-- C2 (amended): egress-mode resolution precedence as implemented: if
`egress=` is present the mode is `Simple` with its level (regardless of
`ok`/`err`); otherwise, if the legacy bare literal is present, `Simple` with
that level; otherwise, if `ok` or `err` is present, `DualOutcome` with the
given levels; otherwise there is no egress logging. -/
theorem c2_egress_resolution (input : DirectiveInput) (st : ParseState)
    (args : MacroArgs)
    (hres : resolveEntries input.entries = Except.ok st)
    (hparse : MacroArgs.parse input = Except.ok args) :
    (∀ lvl, st.egress = some lvl →
        args.log_egress_args = some (LogEgressArgs.Simple lvl)) ∧
    (∀ lvl, st.egress = none → input.legacy = some lvl →
        args.log_egress_args = some (LogEgressArgs.Simple lvl)) ∧
    (st.egress = none → input.legacy = none →
        (st.ok.isSome ∨ st.err.isSome) →
        args.log_egress_args = some (LogEgressArgs.Result st.ok st.err)) ∧
    (st.egress = none → input.legacy = none → st.ok = none → st.err = none →
        args.log_egress_args = none) := by
  have hargs := finishParse_ok_inv input.legacy st args
    (by rw [← parse_eq_finish input st hres]; exact hparse)
  subst hargs
  refine ⟨?_, ?_, ?_, ?_⟩
  · intro lvl h
    simp [mkMacroArgs, resolveEgress, h]
  · intro lvl h hleg
    simp [mkMacroArgs, resolveEgress, h, hleg]
  · intro h hleg hok
    have hcond : (st.ok.isNone && st.err.isNone) = false := by
      rcases hok with hok | hok <;>
        simp [Option.isSome_iff_exists] at hok <;>
        rcases hok with ⟨w, hw⟩ <;> simp [hw]
    simp [mkMacroArgs, resolveEgress, h, hleg, hcond]
  · intro h hleg hok herr
    simp [mkMacroArgs, resolveEgress, h, hleg, hok, herr]

/-- C2 witness: at the concrete payload `(egress="info", ok="warn")` the
resolved egress mode is `Simple "info"`, and at the ingress-only payload
`(ingress="info")` there is no egress logging at all. -/
theorem c2_egress_resolution_witness :
    (MacroArgs.mk none (some (LogEgressArgs.Simple "info")) none false).log_egress_args =
      some (LogEgressArgs.Simple "info") ∧
    (MacroArgs.mk (some "info") none (some []) false).log_egress_args =
      (none : Option LogEgressArgs) :=
  ⟨(c2_egress_resolution
      { legacy := none,
        entries := [Entry.nameValue "egress" "info", Entry.nameValue "ok" "warn"] }
      { ok := some "warn", err := none, ingress := none, egress := some "info",
        skip := none, debug := none }
      (MacroArgs.mk none (some (LogEgressArgs.Simple "info")) none false)
      rfl rfl).1 "info" rfl,
   (c2_egress_resolution
      { legacy := none, entries := [Entry.nameValue "ingress" "info"] }
      { ok := none, err := none, ingress := some "info", egress := none,
        skip := none, debug := none }
      (MacroArgs.mk (some "info") none (some []) false)
      rfl rfl).2.2.2 rfl rfl rfl rfl⟩

/-- C7: a directive resolving to neither an ingress level nor any egress mode
(no `ingress`, `egress`, `ok` or `err` entry and no legacy bare literal) fails
with the no-op usage error; no `MacroArgs` is produced. -/
theorem c7_noop_rejected (input : DirectiveInput) (st : ParseState)
    (hres : resolveEntries input.entries = Except.ok st)
    (hing : st.ingress = none) (hegr : st.egress = none)
    (hok : st.ok = none) (herr : st.err = none)
    (hleg : input.legacy = none) :
    MacroArgs.parse input = Except.error ParseError.noOp := by
  simp [MacroArgs.parse, hres, finishParse, resolveEgress, hing, hegr, hok, herr, hleg]

/-- C7 witness: the empty payload and the `skip=[a]`-only payload both fail
with the no-op error. -/
theorem c7_noop_rejected_witness :
    MacroArgs.parse { legacy := none, entries := [] } =
      Except.error ParseError.noOp ∧
    MacroArgs.parse { legacy := none, entries := [Entry.skipEntry ["a"]] } =
      Except.error ParseError.noOp :=
  ⟨c7_noop_rejected _ initState rfl rfl rfl rfl rfl rfl,
   c7_noop_rejected _ { initState with skip := some ["a"] } rfl rfl rfl rfl rfl rfl⟩

/-- C8: if `ingress` resolved to a level and no explicit `skip=` entry was
given, the skip-list defaults to the explicit empty list ("log everything");
with neither `ingress` nor `skip` it stays `none` ("log nothing"). -/
theorem c8_skip_default (input : DirectiveInput) (st : ParseState)
    (args : MacroArgs)
    (hres : resolveEntries input.entries = Except.ok st)
    (hparse : MacroArgs.parse input = Except.ok args)
    (hskip : st.skip = none) :
    (st.ingress.isSome → args.params = some []) ∧
    (st.ingress = none → args.params = none) := by
  have hargs := finishParse_ok_inv input.legacy st args
    (by rw [← parse_eq_finish input st hres]; exact hparse)
  subst hargs
  constructor
  · intro h
    simp [mkMacroArgs, resolveSkip, h, hskip]
  · intro h
    simp [mkMacroArgs, resolveSkip, h, hskip]

/-- C8 witness: `(ingress="info")` yields the explicit empty skip-list, while
the bare `("info")` payload leaves the skip-list unset. -/
theorem c8_skip_default_witness :
    (MacroArgs.mk (some "info") none (some []) false).params = some ([] : List String) ∧
    (MacroArgs.mk none (some (LogEgressArgs.Simple "info")) none false).params =
      (none : Option (List String)) :=
  ⟨(c8_skip_default { legacy := none, entries := [Entry.nameValue "ingress" "info"] }
      { ok := none, err := none, ingress := some "info", egress := none,
        skip := none, debug := none }
      (MacroArgs.mk (some "info") none (some []) false) rfl rfl rfl).1 rfl,
   (c8_skip_default { legacy := some "info", entries := [] } initState
      (MacroArgs.mk none (some (LogEgressArgs.Simple "info")) none false)
      rfl rfl rfl).2 rfl⟩

/-- C10: for a successfully parsed directive, the `debug` flag is `true`
exactly when the `debug=` value is the string "true"; it defaults to `false`
when absent; and processing a `debug=` entry never fails, whatever its value
is. -/
theorem c10_debug_flag (input : DirectiveInput) (st : ParseState)
    (args : MacroArgs) (v : String)
    (hres : resolveEntries input.entries = Except.ok st)
    (hparse : MacroArgs.parse input = Except.ok args) :
    (st.debug = some v → args.debug = (v == "true")) ∧
    (st.debug = none → args.debug = false) ∧
    processEntry st (Entry.nameValue "debug" v) =
      Except.ok { st with debug := some v } := by
  have hargs := finishParse_ok_inv input.legacy st args
    (by rw [← parse_eq_finish input st hres]; exact hparse)
  subst hargs
  refine ⟨?_, ?_, rfl⟩
  · intro h
    simp [mkMacroArgs, h]
  · intro h
    simp [mkMacroArgs, h]

/-- C10 witness: `(ingress="info", debug="yes")` parses successfully — no
error — and yields `debug = false`, since "yes" is not exactly "true". -/
theorem c10_debug_flag_witness :
    (MacroArgs.mk (some "info") none (some []) false).debug = ("yes" == "true") :=
  (c10_debug_flag
      { legacy := none,
        entries := [Entry.nameValue "ingress" "info", Entry.nameValue "debug" "yes"] }
      { ok := none, err := none, ingress := some "info", egress := none,
        skip := none, debug := some "yes" }
      (MacroArgs.mk (some "info") none (some []) false) "yes" rfl rfl).1 rfl

/-- Helper: prepending the empty string is the identity. -/
theorem str_empty_append (s : String) : "" ++ s = s := rfl

/-- Helper: from position 1 onwards, every enumerated piece starts with the
", " separator. -/
theorem concat_enum_sep (g : String → String) (t : List String) :
    ∀ n, 0 < n →
      concatAll ((List.enumFrom n t).map (fun p =>
        (if p.1 > 0 then ", " else "") ++ g p.2)) =
        concatAll (t.map (fun x => ", " ++ g x)) := by
  induction t with
  | nil => intro n _; rfl
  | cons a t ih =>
      intro n hn
      simp only [List.enumFrom, List.map, concatAll]
      rw [if_pos hn, ih (n + 1) (Nat.succ_pos n)]

/-- Helper: the comma-joined rendering of a mapped nonempty list, unfolded to
head plus separator-front pieces. -/
theorem joinSep_cons_concat (g : String → String) (a : String) (t : List String) :
    joinSep (g a :: t.map g) = g a ++ concatAll (t.map (fun x => ", " ++ g x)) := by
  induction t generalizing a with
  | nil => simp [joinSep, concatAll, String.append_empty]
  | cons b t ih =>
      simp only [List.map, joinSep, concatAll]
      rw [ih b]
      simp [String.append_assoc]

/-- C6: the format builder emits one `name: placeholder` entry per parameter,
comma-joined in parameter order with skipped parameters shown literally as
`<skipped>`; the value list holds exactly the non-skipped identifiers (built
by the identifier transform) in order; and when every parameter is skipped
(in particular when there are none) the value list is empty and its rendering
carries no separator at all. -/
theorem c6_format_builder (param_ident_builder : String → String)
    (param_idents to_skip : List String) :
    (build_input_format_arguments param_ident_builder param_idents to_skip).1 =
      spec_format_string param_idents to_skip ∧
    (build_input_format_arguments param_ident_builder param_idents to_skip).2 =
      (param_idents.filter (fun n => !(to_skip.contains n))).map param_ident_builder ∧
    (param_idents.all (fun n => to_skip.contains n) →
      (build_input_format_arguments param_ident_builder param_idents to_skip).2 = [] ∧
      render_format_values
        (build_input_format_arguments param_ident_builder param_idents to_skip).2 = "") := by
  refine ⟨?_, rfl, ?_⟩
  · cases param_idents with
    | nil => rfl
    | cons a t =>
        simp only [build_input_format_arguments, spec_format_string, List.enum,
          List.enumFrom, List.map, concatAll]
        rw [concat_enum_sep (fun n =>
              n ++ ": " ++ (if to_skip.contains n then "<skipped>" else FORMAT_PLACEHOLDER))
            t 1 Nat.one_pos,
          joinSep_cons_concat (fun n =>
              n ++ ": " ++ (if to_skip.contains n then "<skipped>" else FORMAT_PLACEHOLDER))
            a t]
        simp only [show (if 0 > 0 then ", " else "") = "" from rfl, str_empty_append]
  · intro hall
    have hfil : param_idents.filter (fun n => !(to_skip.contains n)) = [] := by
      rw [List.filter_eq_nil_iff]
      intro a ha
      have h2 := (List.all_eq_true.mp hall) a ha
      simp_all
    simp only [build_input_format_arguments]
    rw [hfil]
    simp [render_format_values]

/-- C9: whenever the rewrite succeeds, the emitted declaration (also in the
diagnostic-dump outcome) keeps the attributes, the visibility and every
signature field — name, const/unsafe/async qualifiers, abi, generic
parameters, where clause, parameter list and return type — verbatim from the
input; only the body is replaced. -/
theorem c9_signature_preserved (margs : MacroArgs) (f : ItemFnR)
    (res : LogcallResult) (h : logcall margs f = Except.ok res) :
    res.fn.sig = f.sig ∧ res.fn.vis = f.vis ∧ res.fn.attrs = f.attrs := by
  simp only [logcall] at h
  split at h
  · exact absurd h (by simp)
  · split at h
    · exact absurd h (by simp)
    · split at h
      · injection h with h2
        rw [← h2]
        exact ⟨rfl, rfl, rfl⟩
      · injection h with h2
        rw [← h2]
        exact ⟨rfl, rfl, rfl⟩

/-- C9 witness: the rewrite of a concrete parameterless function under the
directive `("info")` preserves the signature, visibility and attributes. -/
theorem c9_signature_preserved_witness :
    (LogcallResult.emitted
      { attrs := [], vis := "pub",
        sig := { ident := "f", constness := false, unsafety := false,
                 asyncness := false, abi := none, gen_params := [],
                 where_clause := none, inputs := [], output := "u32" },
        body := RewrittenBody.plain
          { pre := [],
            egress := { wrapper := BlockWrapper.plain,
                        stmts := [GenStmt.runBody "__ret_value",
                                  GenStmt.logStmt
                                    { level := "info",
                                      fmt := "\x7b\x7d() => \x7b:?\x7d",
                                      fnName := "f", paramValueIdents := [],
                                      retIdent := some "__ret_value" },
                                  GenStmt.retExpr "__ret_value"] } } }).fn.sig =
      (ItemFnR.mk [] "pub"
        { ident := "f", constness := false, unsafety := false,
          asyncness := false, abi := none, gen_params := [],
          where_clause := none, inputs := [], output := "u32" }
        [RStmt.otherStmt]).sig ∧
    (LogcallResult.emitted
      { attrs := [], vis := "pub",
        sig := { ident := "f", constness := false, unsafety := false,
                 asyncness := false, abi := none, gen_params := [],
                 where_clause := none, inputs := [], output := "u32" },
        body := RewrittenBody.plain
          { pre := [],
            egress := { wrapper := BlockWrapper.plain,
                        stmts := [GenStmt.runBody "__ret_value",
                                  GenStmt.logStmt
                                    { level := "info",
                                      fmt := "\x7b\x7d() => \x7b:?\x7d",
                                      fnName := "f", paramValueIdents := [],
                                      retIdent := some "__ret_value" },
                                  GenStmt.retExpr "__ret_value"] } } }).fn.vis =
      (ItemFnR.mk [] "pub"
        { ident := "f", constness := false, unsafety := false,
          asyncness := false, abi := none, gen_params := [],
          where_clause := none, inputs := [], output := "u32" }
        [RStmt.otherStmt]).vis ∧
    (LogcallResult.emitted
      { attrs := [], vis := "pub",
        sig := { ident := "f", constness := false, unsafety := false,
                 asyncness := false, abi := none, gen_params := [],
                 where_clause := none, inputs := [], output := "u32" },
        body := RewrittenBody.plain
          { pre := [],
            egress := { wrapper := BlockWrapper.plain,
                        stmts := [GenStmt.runBody "__ret_value",
                                  GenStmt.logStmt
                                    { level := "info",
                                      fmt := "\x7b\x7d() => \x7b:?\x7d",
                                      fnName := "f", paramValueIdents := [],
                                      retIdent := some "__ret_value" },
                                  GenStmt.retExpr "__ret_value"] } } }).fn.attrs =
      (ItemFnR.mk [] "pub"
        { ident := "f", constness := false, unsafety := false,
          asyncness := false, abi := none, gen_params := [],
          where_clause := none, inputs := [], output := "u32" }
        [RStmt.otherStmt]).attrs :=
  c9_signature_preserved
    (MacroArgs.mk none (some (LogEgressArgs.Simple "info")) none false)
    (ItemFnR.mk [] "pub"
      { ident := "f", constness := false, unsafety := false,
        asyncness := false, abi := none, gen_params := [],
        where_clause := none, inputs := [], output := "u32" }
      [RStmt.otherStmt])
    _ rfl

/-- C5: a non-suspending function whose trailing expression statement calls a
path ending in `Box::pin` on a call to a suspending function declared earlier
in the same body is refused: synthesis stops with the unsupported-legacy-shape
error instead of emitting anything. -/
theorem c5_legacy_wrapper_rejected (margs : MacroArgs) (f : ItemFnR)
    (fn_args : List String) (pre : List RStmt) (p fp : List String)
    (inner_args rest_args : List RExpr)
    (hargs : extract_fn_args f.sig.inputs = Except.ok fn_args)
    (hsync : f.sig.asyncness = false)
    (hblock : f.block = pre ++ [RStmt.exprStmt (RExpr.call (RExpr.path p)
        (RExpr.call (RExpr.path fp) inner_args :: rest_args))])
    (hpin : strEndsWith (path_to_string p) "Box::pin" = true)
    (hdecl : RStmt.itemFn (path_to_string fp) true ∈ pre) :
    logcall margs f = Except.error SynthError.asyncTraitTooOld := by
  have hinfo : get_async_trait_info f.block f.sig.asyncness =
      some AsyncTraitKind.function := by
    rw [hsync, hblock]
    unfold get_async_trait_info
    simp only [Bool.false_eq_true, if_false, List.reverse_append,
      List.reverse_cons, List.reverse_nil, List.nil_append, List.singleton_append,
      List.findSome?_cons, hpin, if_true]
    have hmem : RStmt.itemFn (path_to_string fp) true ∈
        pre ++ [RStmt.exprStmt (RExpr.call (RExpr.path p)
          (RExpr.call (RExpr.path fp) inner_args :: rest_args))] :=
      List.mem_append_left _ hdecl
    have hsat : (fun s =>
        match s with
        | RStmt.itemFn n is_async => is_async && (n == path_to_string fp)
        | _ => false) (RStmt.itemFn (path_to_string fp) true) = true := by simp
    have hsome : ((pre ++ [RStmt.exprStmt (RExpr.call (RExpr.path p)
        (RExpr.call (RExpr.path fp) inner_args :: rest_args))]).find? (fun s =>
        match s with
        | RStmt.itemFn n is_async => is_async && (n == path_to_string fp)
        | _ => false)).isSome := List.find?_isSome.mpr ⟨_, hmem, hsat⟩
    obtain ⟨y, hy⟩ := Option.isSome_iff_exists.mp hsome
    rw [hy]
  simp only [logcall, hargs, gen_wrapped_body, hinfo]

/-- C5 witness: the concrete legacy shape
`fn f() { async fn inner() {...}; Box::pin(inner()) }` is rejected with the
unsupported-shape error. -/
theorem c5_legacy_wrapper_rejected_witness :
    logcall (MacroArgs.mk none (some (LogEgressArgs.Simple "info")) none false)
      (ItemFnR.mk [] ""
        { ident := "f", constness := false, unsafety := false,
          asyncness := false, abi := none, gen_params := [],
          where_clause := none, inputs := [], output := "()" }
        [RStmt.itemFn "inner" true,
         RStmt.exprStmt (RExpr.call (RExpr.path ["Box", "pin"])
           [RExpr.call (RExpr.path ["inner"]) []])]) =
      Except.error SynthError.asyncTraitTooOld :=
  c5_legacy_wrapper_rejected _ _ [] [RStmt.itemFn "inner" true]
    ["Box", "pin"] ["inner"] [] []
    rfl rfl rfl (by decide) (by simp [path_to_string])

/-- Helper: extracting the bound clone identifiers from the generated clone
statements. -/
theorem filterMap_cloneIdents (l : List String) :
    (l.map (fun q => GenStmt.cloneParam (cloned_param_ident q) (param_ident q))).filterMap
        cloneIdentOf = l.map cloned_param_ident := by
  induction l with
  | nil => rfl
  | cons a t ih => simp [List.filterMap_cons, cloneIdentOf, ih]

/-- Helper: the clone statements bind exactly the cloned identifiers of the
wanted (non-skipped) parameters. -/
theorem preclones_eq (m : MacroArgs) (fn_args : List String) :
    (gen_ingress_clone_params m fn_args).filterMap cloneIdentOf =
      (build_wanted_params_list fn_args (m.gen_skip_params_list fn_args)).map
        cloned_param_ident := by
  have hc : m.should_clone_params = true := rfl
  unfold gen_ingress_clone_params
  rw [if_pos hc]
  exact filterMap_cloneIdents _

/-- Helper: inversion of a successful `gen_ingress_block` run — the egress
block is kept, and the pre-body clone statements bind the cloned identifiers
of the wanted parameters. -/
theorem gen_ingress_block_ok_inv (eb : EgressBlock) (fn_name : String)
    (fn_args : List String) (m : MacroArgs) (w : WrappedBody)
    (h : gen_ingress_block eb fn_name fn_args m = Except.ok w) :
    w.egress = eb ∧
    w.pre.filterMap cloneIdentOf =
      (build_wanted_params_list fn_args (m.gen_skip_params_list fn_args)).map
        cloned_param_ident := by
  simp only [gen_ingress_block] at h
  split at h
  · injection h with h2
    rw [← h2]
    exact ⟨rfl, preclones_eq m fn_args⟩
  · split at h
    · exact absurd h (by simp)
    · injection h with h2
      rw [← h2]
      refine ⟨rfl, ?_⟩
      simp [List.filterMap_append, cloneIdentOf, preclones_eq m fn_args]

/-- Helper: inversion of a successful `gen_egress_log` run. -/
theorem gen_egress_log_ok_inv (level fn_name : String)
    (param_names : List String) (pskip : Option (List String))
    (rname ro rc : String) (l : LogCall)
    (h : gen_egress_log level fn_name param_names pskip rname ro rc =
      Except.ok l) :
    l = mk_egress_log_call (strToLower level) fn_name param_names pskip
      rname ro rc := by
  simp only [gen_egress_log] at h
  split at h
  · exact absurd h (by simp)
  · injection h with h2
    exact h2.symm

/-- Helper: inversion of a successful dual-outcome arm construction. -/
theorem gen_result_arm_inv (lvl : Option String) (fn_name : String)
    (fn_args : List String) (m : MacroArgs) (rname ro rc : String)
    (arm : Option LogCall)
    (h : gen_result_arm lvl fn_name fn_args m rname ro rc = Except.ok arm) :
    arm = lvl.map (fun L =>
      mk_egress_log_call (strToLower L) fn_name fn_args m.params rname ro rc) := by
  cases lvl with
  | none =>
      injection h with h2
      exact h2.symm
  | some L =>
      simp only [gen_result_arm, gen_egress_log] at h
      split at h
      · exact absurd h (by simp)
      · rename_i log hlog
        injection h with h2
        rw [← h2]
        split at hlog
        · exact absurd hlog (by simp)
        · injection hlog with h3
          rw [← h3]
          rfl

/-- C3 counterexample: for the concrete directive `ingress="info",
egress="info"` on `f(a)`, the egress log renders exactly the identifier
`__cloned_a` — precisely the identifier bound by the clone statement emitted
before the body runs.  The egress log therefore reuses the pre-body capture
instead of being an independent capture taken after the body, refuting the
claim. -/
theorem c3_counterexample :
    Except.map
      (fun w => ((egressLogs w).map LogCall.paramValueIdents,
        preBodyCloneIdents w))
      (Except.bind
        (gen_egress_block false false "f" ["a"]
          (MacroArgs.mk (some "info") (some (LogEgressArgs.Simple "info"))
            (some []) false))
        (fun eb => gen_ingress_block eb "f" ["a"]
          (MacroArgs.mk (some "info") (some (LogEgressArgs.Simple "info"))
            (some []) false))) =
      Except.ok ([["__cloned_a"]], ["__cloned_a"]) := rfl

/-- C3 (amended): in every template, the egress-side log calls render the
pre-body snapshots: their parameter-value identifiers are the
`__cloned_<name>` identifiers of the wanted parameters, which are exactly the
identifiers bound by the clone statements placed before the body — the egress
log reuses these pre-body captures, with no re-capture at the point of egress
logging. -/
theorem c3_egress_reuses_prebody_clones (fn_name : String)
    (fn_args : List String) (m : MacroArgs) (ac ak : Bool) (eb : EgressBlock)
    (w : WrappedBody)
    (hegress : gen_egress_block ac ak fn_name fn_args m = Except.ok eb)
    (hingress : gen_ingress_block eb fn_name fn_args m = Except.ok w) :
    preBodyCloneIdents w =
      (build_wanted_params_list fn_args (m.gen_skip_params_list fn_args)).map
        cloned_param_ident ∧
    ∀ l ∈ egressLogs w,
      l.paramValueIdents =
        (build_wanted_params_list fn_args (m.gen_skip_params_list fn_args)).map
          cloned_param_ident := by
  obtain ⟨hw, hpre⟩ := gen_ingress_block_ok_inv eb fn_name fn_args m w hingress
  refine ⟨hpre, ?_⟩
  simp only [egressLogs, hw]
  simp only [gen_egress_block] at hegress
  split at hegress
  · injection hegress with h2
    rw [← h2]
    intro l hl
    simp [egressLogsOf] at hl
  · split at hegress
    · exact absurd hegress (by simp)
    · rename_i log hlog
      injection hegress with h2
      rw [← h2]
      intro l hl
      simp [egressLogsOf] at hl
      subst hl
      rw [gen_egress_log_ok_inv _ _ _ _ _ _ _ _ hlog]
      rfl
  · rename_i ok_level err_level heqmode
    split at hegress
    · exact absurd hegress (by simp)
    · rename_i okArm hOkArm
      split at hegress
      · exact absurd hegress (by simp)
      · rename_i errArm hErrArm
        injection hegress with h2
        rw [← h2]
        intro l hl
        have hOk := gen_result_arm_inv ok_level fn_name fn_args m
          "__ok_value" "Ok(" ")" okArm hOkArm
        have hErr := gen_result_arm_inv err_level fn_name fn_args m
          "__err_value" "Err(" ")" errArm hErrArm
        simp only [egressLogsOf, List.foldr, List.append_nil,
          List.mem_append] at hl
        rcases hl with hl | hl
        · rw [hOk] at hl
          cases ok_level with
          | none => simp at hl
          | some L =>
              simp at hl
              subst hl
              rfl
        · rw [hErr] at hl
          cases err_level with
          | none => simp at hl
          | some L =>
              simp at hl
              subst hl
              rfl

/-- C3 (amended) witness: at the concrete directive `ingress="info",
egress="info"` on `f(a)` the pre-body clones and the egress log identifiers
both come out as `__cloned_a`. -/
theorem c3_egress_reuses_prebody_clones_witness :
    preBodyCloneIdents
      { pre := [GenStmt.cloneParam "__cloned_a" "a",
                GenStmt.logStmt
                  { level := "info", fmt := "<= \x7b\x7d(a: \x7b:?\x7d):",
                    fnName := "f", paramValueIdents := ["a"], retIdent := none }],
        egress := { wrapper := BlockWrapper.plain,
                    stmts := [GenStmt.runBody "__ret_value",
                              GenStmt.logStmt
                                { level := "info",
                                  fmt := "\x7b\x7d(a: \x7b:?\x7d) => \x7b:?\x7d",
                                  fnName := "f",
                                  paramValueIdents := ["__cloned_a"],
                                  retIdent := some "__ret_value" },
                              GenStmt.retExpr "__ret_value"] } } =
      (build_wanted_params_list ["a"]
        ((MacroArgs.mk (some "info") (some (LogEgressArgs.Simple "info"))
          (some []) false).gen_skip_params_list ["a"])).map cloned_param_ident ∧
    ∀ l ∈ egressLogs
      { pre := [GenStmt.cloneParam "__cloned_a" "a",
                GenStmt.logStmt
                  { level := "info", fmt := "<= \x7b\x7d(a: \x7b:?\x7d):",
                    fnName := "f", paramValueIdents := ["a"], retIdent := none }],
        egress := { wrapper := BlockWrapper.plain,
                    stmts := [GenStmt.runBody "__ret_value",
                              GenStmt.logStmt
                                { level := "info",
                                  fmt := "\x7b\x7d(a: \x7b:?\x7d) => \x7b:?\x7d",
                                  fnName := "f",
                                  paramValueIdents := ["__cloned_a"],
                                  retIdent := some "__ret_value" },
                              GenStmt.retExpr "__ret_value"] } },
      l.paramValueIdents =
        (build_wanted_params_list ["a"]
          ((MacroArgs.mk (some "info") (some (LogEgressArgs.Simple "info"))
            (some []) false).gen_skip_params_list ["a"])).map cloned_param_ident :=
  c3_egress_reuses_prebody_clones "f" ["a"]
    (MacroArgs.mk (some "info") (some (LogEgressArgs.Simple "info"))
      (some []) false)
    false false _ _ rfl rfl

/-- C4: for every directive whose egress mode is dual-outcome, the generated
egress template re-surfaces the body's original outcome unchanged to the
caller, and emits exactly the configured arm's log for the outcome at hand —
in particular an arm whose level is not configured emits no log at all. -/
theorem c4_dual_outcome_template {α ε : Type} (fn_name : String)
    (fn_args : List String) (m : MacroArgs) (ok_level err_level : Option String)
    (ac ak : Bool) (eb : EgressBlock) (r : Outcome α ε)
    (hmode : m.log_egress_args = some (LogEgressArgs.Result ok_level err_level))
    (hgen : gen_egress_block ac ak fn_name fn_args m = Except.ok eb) :
    (evalEgressStmts r eb.stmts).1 = some r ∧
    (evalEgressStmts r eb.stmts).2 =
      (match r with
       | Outcome.ok v =>
         (ok_level.map (fun L => (strToLower L, Outcome.ok (ε := ε) v))).toList
       | Outcome.err e =>
         (err_level.map (fun L => (strToLower L, Outcome.err (α := α) e))).toList) := by
  simp only [gen_egress_block, hmode] at hgen
  split at hgen
  · exact absurd hgen (by simp)
  · rename_i okArm hOkArm
    split at hgen
    · exact absurd hgen (by simp)
    · rename_i errArm hErrArm
      injection hgen with h2
      have hOk := gen_result_arm_inv ok_level fn_name fn_args m
        "__ok_value" "Ok(" ")" okArm hOkArm
      have hErr := gen_result_arm_inv err_level fn_name fn_args m
        "__err_value" "Err(" ")" errArm hErrArm
      subst hOk
      subst hErr
      rw [← h2]
      cases r with
      | ok v =>
          constructor
          · simp [evalEgressStmts]
          · cases ok_level with
            | none => simp [evalEgressStmts]
            | some L => simp [evalEgressStmts, mk_egress_log_call]
      | err e =>
          constructor
          · simp [evalEgressStmts]
          · cases err_level with
            | none => simp [evalEgressStmts]
            | some L => simp [evalEgressStmts, mk_egress_log_call]

/-- C4 witness: for the directive `ok="info"` on a dual-outcome function, a
success `5` is returned unchanged with exactly one log at `info` carrying
`5`, and a failure is returned unchanged with no log emitted at all. -/
theorem c4_dual_outcome_template_witness :
    ((evalEgressStmts (Outcome.ok 5 : Outcome Int String)
        [GenStmt.runBody "__ret_value",
         GenStmt.matchRet "__ret_value"
           (some { level := "info", fmt := "\x7b\x7d() => Ok(\x7b:?\x7d)",
                   fnName := "f", paramValueIdents := [],
                   retIdent := some "__ok_value" }) none,
         GenStmt.retExpr "__ret_value"]).1 = some (Outcome.ok 5) ∧
      (evalEgressStmts (Outcome.ok 5 : Outcome Int String)
        [GenStmt.runBody "__ret_value",
         GenStmt.matchRet "__ret_value"
           (some { level := "info", fmt := "\x7b\x7d() => Ok(\x7b:?\x7d)",
                   fnName := "f", paramValueIdents := [],
                   retIdent := some "__ok_value" }) none,
         GenStmt.retExpr "__ret_value"]).2 = [("info", Outcome.ok 5)]) ∧
    ((evalEgressStmts (Outcome.err "boom" : Outcome Int String)
        [GenStmt.runBody "__ret_value",
         GenStmt.matchRet "__ret_value"
           (some { level := "info", fmt := "\x7b\x7d() => Ok(\x7b:?\x7d)",
                   fnName := "f", paramValueIdents := [],
                   retIdent := some "__ok_value" }) none,
         GenStmt.retExpr "__ret_value"]).1 = some (Outcome.err "boom") ∧
      (evalEgressStmts (Outcome.err "boom" : Outcome Int String)
        [GenStmt.runBody "__ret_value",
         GenStmt.matchRet "__ret_value"
           (some { level := "info", fmt := "\x7b\x7d() => Ok(\x7b:?\x7d)",
                   fnName := "f", paramValueIdents := [],
                   retIdent := some "__ok_value" }) none,
         GenStmt.retExpr "__ret_value"]).2 = []) :=
  ⟨c4_dual_outcome_template "f" []
      (MacroArgs.mk none (some (LogEgressArgs.Result (some "info") none))
        none false)
      (some "info") none false false
      (EgressBlock.mk BlockWrapper.plain
        [GenStmt.runBody "__ret_value",
         GenStmt.matchRet "__ret_value"
           (some { level := "info", fmt := "\x7b\x7d() => Ok(\x7b:?\x7d)",
                   fnName := "f", paramValueIdents := [],
                   retIdent := some "__ok_value" }) none,
         GenStmt.retExpr "__ret_value"])
      (Outcome.ok 5) rfl rfl,
   c4_dual_outcome_template "f" []
      (MacroArgs.mk none (some (LogEgressArgs.Result (some "info") none))
        none false)
      (some "info") none false false
      (EgressBlock.mk BlockWrapper.plain
        [GenStmt.runBody "__ret_value",
         GenStmt.matchRet "__ret_value"
           (some { level := "info", fmt := "\x7b\x7d() => Ok(\x7b:?\x7d)",
                   fnName := "f", paramValueIdents := [],
                   retIdent := some "__ok_value" }) none,
         GenStmt.retExpr "__ret_value"])
      (Outcome.err "boom") rfl rfl⟩

/-- C6 witness: concrete instances — a two-parameter list with one skipped
entry matches the spec shape, and a fully skipped list yields the empty value
list with empty rendering. -/
theorem c6_format_builder_witness :
    (build_input_format_arguments (fun n => n) ["a", "b"] ["b"]).1 =
      spec_format_string ["a", "b"] ["b"] ∧
    ((build_input_format_arguments (fun n => n) ["a"] ["a"]).2 = [] ∧
      render_format_values (build_input_format_arguments (fun n => n) ["a"] ["a"]).2 = "") :=
  ⟨(c6_format_builder (fun n => n) ["a", "b"] ["b"]).1,
   (c6_format_builder (fun n => n) ["a"] ["a"]).2.2 (by decide)⟩

end Logcall
